import Mathlib

set_option linter.unusedVariables false

/-!
Shallow embedding of `src/app.py`: a small Flask journal application with
registration, login (with an open-redirect check on the `next` parameter),
and per-user entry creation/listing backed by an external completion service.
Request handlers are modelled as pure functions from their inputs (form
fields, the current stores, the outcome of the outbound HTTP call) to the
resulting page action and updated stores.
-/

/-- Python truthiness of an optional form string: `request.form.get` (and
`request.args.get`) returns `None` when the field is absent, and `not x`
is true when the field is absent or the empty string. -/
def formMissing : Option String → Bool
  | none => true
  | some s => s.isEmpty

/-! URL parsing, modelling `urllib.parse.urlparse` / `urljoin` at the
granularity the app inspects: scheme and netloc. -/

/-- Characters CPython accepts inside a URL scheme (letters, digits, `+`, `-`, `.`). -/
def schemeChar (c : Char) : Bool :=
  c.isAlphanum || c == '+' || c == '-' || c == '.'

/-- Parsed pieces of a URL that `is_safe_url` inspects: the (lowercased)
scheme, the network location, and the unanalysed remainder. -/
structure UrlParts where
  scheme : String
  netloc : String
  rest : String
deriving DecidableEq, Repr

/-- Splits `scheme:rest` when the part before the first `:` is a valid scheme
(nonempty, starts with a letter, all scheme characters); CPython lowercases
the scheme. Returns `none` when the URL has no scheme. -/
def splitScheme (cs : List Char) : Option (List Char × List Char) :=
  let pre := cs.takeWhile schemeChar
  match cs.drop pre.length with
  | ':' :: rest =>
    match pre with
    | [] => none
    | c :: _ => if c.isAlpha then some (pre.map Char.toLower, rest) else none
  | _ => none

/-- Characters terminating the netloc component of a URL. -/
def netlocEnd (c : Char) : Bool :=
  c == '/' || c == '?' || c == '#'

/-- When the remainder begins with `//`, the netloc runs up to the next
`/`, `?` or `#`; otherwise the netloc is empty. -/
def splitNetloc (cs : List Char) : List Char × List Char :=
  match cs with
  | '/' :: '/' :: rest =>
    (rest.takeWhile (fun c => !netlocEnd c), rest.dropWhile (fun c => !netlocEnd c))
  | _ => ([], cs)

/-- Model of `urllib.parse.urlparse url defaultScheme` restricted to the parts
the app uses: the default scheme is taken when the URL carries none. -/
def urlparse (url : String) (defaultScheme : String) : UrlParts :=
  let sr := match splitScheme url.toList with
    | some p => (String.mk p.1, p.2)
    | none => (defaultScheme, url.toList)
  let nr := splitNetloc sr.2
  ⟨sr.1, String.mk nr.1, String.mk nr.2⟩

/-- Schemes for which CPython `urljoin` performs relative resolution. -/
def usesRelative : List String :=
  ["", "ftp", "http", "gopher", "nntp", "imap", "wais", "file", "https",
   "shttp", "mms", "prospero", "rtsp", "rtspu", "sftp", "svn", "svn+ssh",
   "ws", "wss"]

/-- Schemes for which CPython `urljoin` inherits the base netloc when the
relative URL has none. -/
def usesNetloc : List String :=
  ["", "ftp", "http", "gopher", "nntp", "telnet", "imap", "wais", "file",
   "mms", "https", "shttp", "snews", "prospero", "rtsp", "rtspu", "rsync",
   "svn", "svn+ssh", "sftp", "nfs", "git", "git+ssh", "ws", "wss",
   "itms-services"]

/-- Model of `urllib.parse.urljoin base url` at scheme/netloc granularity,
following CPython: an empty operand yields the other one parsed; a URL whose
scheme differs from the base scheme (or is not in `uses_relative`) is taken
verbatim; otherwise a present netloc wins and an absent one is inherited from
the base for `uses_netloc` schemes. The source re-parses the joined string,
which preserves scheme and netloc, so the model returns the parts directly. -/
def urljoin (base url : String) : UrlParts :=
  if base = "" then urlparse url ""
  else if url = "" then urlparse base ""
  else
    let b := urlparse base ""
    let u := urlparse url b.scheme
    if u.scheme ≠ b.scheme ∨ ¬ usesRelative.contains u.scheme then u
    else if usesNetloc.contains u.scheme then
      if u.netloc ≠ "" then u
      else ⟨u.scheme, b.netloc, u.rest⟩
    else u

/-- Embedding of `is_safe_url` (src/app.py lines 40-44): the target joined
against the current host URL must have an http(s) scheme and the same netloc
as the host URL. -/
def is_safe_url (host_url : String) (target : String) : Bool :=
  let ref_url := urlparse host_url ""
  let test_url := urljoin host_url target
  (test_url.scheme == "http" || test_url.scheme == "https") &&
    ref_url.netloc == test_url.netloc

/-! The credential store and the registration / login handlers. -/

/-- Modelled from the spec: the persisted `User` row (`models.py` is not part
of `src/`); §3 of the spec gives identifier, unique username and password
hash. -/
structure User where
  id : Nat
  username : String
  password_hash : String
deriving DecidableEq, Repr

/-- Abstract model of `werkzeug.security.check_password_hash`: with
`generate_password_hash` abstracted as a function `hash`, a stored hash
matches exactly when it equals the hash of the presented password. -/
def check_password_hash (hash : String → String) (pwhash password : String) : Bool :=
  pwhash == hash password

/-- Embedding of `User.query.filter_by(username=username).first()` truthiness. -/
def usernameTaken (users : List User) (username : String) : Bool :=
  users.any (fun u => u.username == username)

/-- Outcome of a POST to `/register`, naming the four branches of the handler. -/
inductive RegisterOutcome where
  | missingFields
  | tooShort
  | usernameExists
  | success
deriving DecidableEq, Repr

/-- Embedding of the POST branch of `register` (src/app.py lines 79-95):
validation in source order, then the new user row is committed. The fresh row
id models the autoincrementing primary key. -/
def register (hash : String → String) (users : List User)
    (usernameField passwordField : Option String) : RegisterOutcome × List User :=
  if formMissing usernameField || formMissing passwordField then
    (.missingFields, users)
  else
    let username := usernameField.getD ""
    let password := passwordField.getD ""
    if username.length < 3 || password.length < 6 then
      (.tooShort, users)
    else if usernameTaken users username then
      (.usernameExists, users)
    else
      (.success, users ++ [⟨users.length + 1, username, hash password⟩])

/-- Page action resulting from a POST to `/login`. -/
inductive LoginPage where
  | redirectNext (target : String)
  | redirectIndex
  | redirectLogin
  | renderLogin
deriving DecidableEq, Repr

/-- Embedding of the POST branch of `login` (src/app.py lines 100-114):
returns the flashed message (if any) and the resulting page action.
Missing fields flash a required-fields message and redirect back to the
login page; matching credentials honour a same-origin `next` target and
otherwise go to the index; any other failure flashes the generic
invalid-credentials message and re-renders the login form. -/
def login (hash : String → String) (users : List User) (host_url : String)
    (usernameField passwordField nextParam : Option String) :
    Option String × LoginPage :=
  if formMissing usernameField || formMissing passwordField then
    (some "Username and password are required.", .redirectLogin)
  else
    let username := usernameField.getD ""
    let password := passwordField.getD ""
    match users.find? (fun u => u.username == username) with
    | some user =>
      if check_password_hash hash user.password_hash password then
        match nextParam with
        | some next_page =>
          if next_page ≠ "" ∧ is_safe_url host_url next_page then
            (none, .redirectNext next_page)
          else
            (none, .redirectIndex)
        | none => (none, .redirectIndex)
      else
        (some "Invalid username or password.", .renderLogin)
    | none => (some "Invalid username or password.", .renderLogin)

/-! The completion-service client and the entry store. -/

/-- The fixed fallback reply stored when the completion-service call raises a
requests exception (src/app.py line 75). -/
def fallback_response : String :=
  "I\x27m sorry, I\x27m having trouble responding right now. Please reach out to a professional."

/-- Python `str.strip` whitespace set (ASCII part): space, tab, newline,
carriage return, vertical tab, form feed. -/
def pyIsSpace (c : Char) : Bool :=
  c == ' ' || c == '\t' || c == '\n' || c == '\r' || c == '\x0b' || c == '\x0c'

/-- Model of Python `str.strip()` on the underlying character list: drop
whitespace from the front, then from the back. -/
def pyStripList (cs : List Char) : List Char :=
  (((cs.dropWhile pyIsSpace).reverse.dropWhile pyIsSpace)).reverse

/-- Model of Python `str.strip()`. -/
def pyStrip (s : String) : String :=
  String.mk (pyStripList s.toList)

/-- Shape of the body of the completion-service HTTP response, at the
granularity `get_xai_response` distinguishes: a body that is not valid JSON
(`response.json()` raises `requests.exceptions.JSONDecodeError`, a
`RequestException`), valid JSON lacking `choices[0].message.content`
(subscripting raises `KeyError`/`IndexError`/`TypeError`, none of which is a
`RequestException`), or valid JSON carrying the content string. -/
inductive RespBody where
  | invalidJson
  | missingShape
  | content (s : String)
deriving DecidableEq, Repr

/-- Outcome of `requests.post` to the completion service: either the call
itself raises a `RequestException` (network failure), or it returns a
response with a status code and a body. -/
inductive HttpResult where
  | requestExn
  | resp (status : Nat) (body : RespBody)
deriving DecidableEq, Repr

/-- A Python exception escaping `get_xai_response` uncaught. -/
inductive PyExn where
  | keyError
deriving DecidableEq, Repr

/-- The prompt string built by `index` (src/app.py line 135). -/
def build_user_input (addiction_type description : String) : String :=
  "I am struggling with " ++ addiction_type ++
    ". Here\x27s what I\x27m going through: " ++ description

/-- Embedding of `get_xai_response` (src/app.py lines 46-75). The `except`
clause catches exactly `requests.exceptions.RequestException`: a raising
`requests.post`, a 4xx/5xx status (`raise_for_status` raises `HTTPError`
for 400 ≤ status < 600), and an invalid JSON body all map to the fallback
string; a valid JSON body without the expected keys raises an uncaught
`KeyError`, modelled as `Except.error`; otherwise the content is returned
stripped. The prompt argument does not affect the modelled outcome. -/
def get_xai_response (userInput : String) (svc : HttpResult) : Except PyExn String :=
  match svc with
  | .requestExn => .ok fallback_response
  | .resp status body =>
    if 400 ≤ status ∧ status < 600 then .ok fallback_response
    else
      match body with
      | .invalidJson => .ok fallback_response
      | .missingShape => .error .keyError
      | .content s => .ok (pyStrip s)

/-- Modelled from the spec: the persisted `Entry` row (`models.py` is not part
of `src/`); §3 of the spec gives identifier, owning user reference, category
label, description, generated reply and creation timestamp. -/
structure Entry where
  id : Nat
  user_id : Nat
  addiction_type : String
  description : String
  response : String
  created_at : Nat
deriving DecidableEq, Repr

/-- Page action resulting from a POST to `/` (entry creation). -/
inductive IndexPostPage where
  | flashRequired
  | flashTooLong
  | saved
  | serverError (e : PyExn)
deriving DecidableEq, Repr

/-- Embedding of the POST branch of `index` (src/app.py lines 126-146):
presence and length validation in source order, then the completion-service
call; an uncaught exception aborts the request before the entry is added,
otherwise the entry is committed with the reply. `now` models the
creation timestamp and the fresh row id models the autoincrementing key. -/
def index_post (svc : HttpResult) (entries : List Entry) (uid : Nat) (now : Nat)
    (addictionField descriptionField : Option String) : IndexPostPage × List Entry :=
  if formMissing addictionField || formMissing descriptionField then
    (.flashRequired, entries)
  else
    let addiction_type := addictionField.getD ""
    let description := descriptionField.getD ""
    if addiction_type.length > 100 || description.length > 1000 then
      (.flashTooLong, entries)
    else
      match get_xai_response (build_user_input addiction_type description) svc with
      | .error e => (.serverError e, entries)
      | .ok xai_response =>
        (.saved,
         entries ++ [⟨entries.length + 1, uid, addiction_type, description,
                      xai_response, now⟩])

/-- Embedding of the GET branch of `index` (src/app.py line 147):
`Entry.query.filter_by(user_id=current_user.id).order_by(Entry.created_at.desc()).all()`. -/
def index_get (entries : List Entry) (uid : Nat) : List Entry :=
  (entries.filter (fun e => e.user_id == uid)).mergeSort
    (fun a b => decide (b.created_at ≤ a.created_at))

/-- Embedding of the startup table-creation block (src/app.py lines 33-38):
`db.create_all()` is modelled by its outcome; on an exception the handler
prints a diagnostic line and re-raises the same exception. Returns the
printed lines alongside the propagated outcome. -/
def startup_create_tables (createAll : Except String Unit) :
    List String × Except String Unit :=
  match createAll with
  | .ok _ => ([], .ok ())
  | .error e => (["Database initialization error: " ++ e], .error e)

/-! Helper lemmas. -/

/-- A string other than the empty string is not `isEmpty`. -/
theorem isEmpty_eq_false_of_ne (s : String) (h : s ≠ "") : s.isEmpty = false := by
  cases hE : s.isEmpty with
  | false => rfl
  | true => exact absurd ((String.isEmpty_iff s).1 hE) h

/-- A string of positive length is not the empty string. -/
theorem ne_empty_of_length_pos (s : String) (h : 0 < s.length) : s ≠ "" := by
  intro hs
  rw [hs] at h
  simp at h

/-- C5: a registration attempt with a missing username, a missing password, a
username shorter than 3 characters or a password shorter than 6 characters
creates no user: the user store is returned unchanged. -/
theorem register_invalid_leaves_store_unchanged
    (hash : String → String) (users : List User)
    (usernameField passwordField : Option String)
    (h : formMissing usernameField = true ∨ formMissing passwordField = true ∨
         (usernameField.getD "").length < 3 ∨ (passwordField.getD "").length < 6) :
    (register hash users usernameField passwordField).2 = users := by
  simp only [register]
  split
  · rfl
  · split
    · rfl
    · split
      · rfl
      · rename_i hmiss hshort htaken
        exfalso
        rcases h with h | h | h | h
        · exact hmiss (by simp [h])
        · exact hmiss (by simp [h])
        · exact hshort (by simp [h])
        · exact hshort (by simp [h])

/-- Witness for C5 at a concrete short username. -/
theorem register_invalid_leaves_store_unchanged_witness :
    (register (fun s => s) [] (some "ab") (some "longenough")).2 = [] :=
  register_invalid_leaves_store_unchanged (fun s => s) [] (some "ab")
    (some "longenough") (Or.inr (Or.inr (Or.inl (by decide))))

/-- C6: registering an already-taken username is rejected, the store (hence
its size) is unchanged, and the registration operation preserves distinctness
of usernames across the store. -/
theorem register_duplicate_rejected_uniqueness_preserved
    (hash : String → String) (users : List User) (username : String)
    (passwordField : Option String)
    (hdup : usernameTaken users username = true) :
    ((register hash users (some username) passwordField).1 ≠ RegisterOutcome.success ∧
     (register hash users (some username) passwordField).2 = users) ∧
    (∀ (uf pf : Option String), (users.map User.username).Nodup →
       ((register hash users uf pf).2.map User.username).Nodup) := by
  constructor
  · simp only [register]
    split
    · exact ⟨by simp, rfl⟩
    · split
      · exact ⟨by simp, rfl⟩
      · split
        · exact ⟨by simp, rfl⟩
        · rename_i htaken
          exact absurd hdup (by simpa using htaken)
  · intro uf pf hnodup
    simp only [register]
    split
    · simpa using hnodup
    · split
      · simpa using hnodup
      · split
        · simpa using hnodup
        · rename_i hmiss hshort htaken
          have hfree : ∀ u ∈ users, ¬ u.username = uf.getD "" := by
            intro u hu hx
            exact htaken (by
              simp only [usernameTaken, List.any_eq_true, beq_iff_eq]
              exact ⟨u, hu, hx⟩)
          simp only [List.map_append, List.map_cons, List.map_nil]
          rw [List.nodup_append]
          refine ⟨hnodup, List.nodup_singleton _, ?_⟩
          intro x hx hx'
          simp only [List.mem_singleton] at hx'
          subst hx'
          rcases List.mem_map.1 hx with ⟨u, hu, hux⟩
          exact hfree u hu hux

/-- Witness for C6 at a concrete duplicated username. -/
theorem register_duplicate_rejected_uniqueness_preserved_witness :
    ((register (fun s => s) [⟨1, "alice", "secret1"⟩] (some "alice")
        (some "password")).1 ≠ RegisterOutcome.success ∧
     (register (fun s => s) [⟨1, "alice", "secret1"⟩] (some "alice")
        (some "password")).2 = [⟨1, "alice", "secret1"⟩]) ∧
    (∀ (uf pf : Option String),
       (([⟨1, "alice", "secret1"⟩] : List User).map User.username).Nodup →
       ((register (fun s => s) [⟨1, "alice", "secret1"⟩] uf pf).2.map
           User.username).Nodup) :=
  register_duplicate_rejected_uniqueness_preserved (fun s => s)
    [⟨1, "alice", "secret1"⟩] "alice" (some "password") (by decide)

/-- C10: registration imposes no upper bound on field lengths: any username of
at least 3 characters that is not already taken and any password of at least 6
characters are accepted and the user row is committed, whatever the lengths. -/
theorem register_no_upper_length_bound
    (hash : String → String) (users : List User) (username password : String)
    (hu : 3 ≤ username.length) (hp : 6 ≤ password.length)
    (hfree : usernameTaken users username = false) :
    register hash users (some username) (some password) =
      (RegisterOutcome.success,
       users ++ [⟨users.length + 1, username, hash password⟩]) := by
  have hu0 : username.isEmpty = false :=
    isEmpty_eq_false_of_ne _ (ne_empty_of_length_pos _ (by omega))
  have hp0 : password.isEmpty = false :=
    isEmpty_eq_false_of_ne _ (ne_empty_of_length_pos _ (by omega))
  unfold register
  simp [formMissing, hu0, hp0, hfree, Nat.not_lt.2 hu, Nat.not_lt.2 hp]

/-- Witness for C10 at a concrete 36-character username and 24-character
password. -/
theorem register_no_upper_length_bound_witness :
    register (fun s => s) [] (some "aaaaaaaaaaaaaaaaaaaaaaaaaaaaaaaaaaaa")
        (some "bbbbbbbbbbbbbbbbbbbbbbbb") =
      (RegisterOutcome.success,
       [⟨1, "aaaaaaaaaaaaaaaaaaaaaaaaaaaaaaaaaaaa", "bbbbbbbbbbbbbbbbbbbbbbbb"⟩]) :=
  register_no_upper_length_bound (fun s => s) []
    "aaaaaaaaaaaaaaaaaaaaaaaaaaaaaaaaaaaa" "bbbbbbbbbbbbbbbbbbbbbbbb"
    (by decide) (by decide) (by decide)

/-- C8: an exception raised by table creation at startup is re-raised after
the diagnostic print, so startup initialization errors propagate and abort
process start rather than being swallowed. -/
theorem startup_error_reraised (e : String) :
    (startup_create_tables (Except.error e)).2 = Except.error e := rfl

/-- C3 fails as stated: a failed login with a missing username flashes the
required-fields message, which is not the uniform invalid-credentials
message, so the missing-fields failure mode is distinguishable. -/
theorem login_missing_field_message_differs :
    (login (fun s => s) [] "http://localhost:5000/" none (some "pw1234") none).1 =
      some "Username and password are required." ∧
    some "Username and password are required." ≠
      some "Invalid username or password." := by
  constructor
  · rfl
  · decide

/-- C3 (amended): for any failed login attempt in which both fields are
present — whether the username is unknown or the password is wrong — the
flashed message is uniformly "Invalid username or password." and the login
form is re-rendered, so the message does not reveal which of the two failed;
an attempt with a missing field instead flashes the distinct message
"Username and password are required.". -/
theorem login_failure_message_uniform
    (hash : String → String) (users : List User) (host_url : String)
    (username password : String) (nextParam : Option String)
    (hu : username ≠ "") (hp : password ≠ "")
    (hfail : ∀ u ∈ users, u.username = username → u.password_hash ≠ hash password) :
    login hash users host_url (some username) (some password) nextParam =
      (some "Invalid username or password.", LoginPage.renderLogin) ∧
    (∀ np pw : Option String,
       login hash users host_url none pw np =
         (some "Username and password are required.", LoginPage.redirectLogin)) := by
  constructor
  · have hu0 : username.isEmpty = false := isEmpty_eq_false_of_ne _ hu
    have hp0 : password.isEmpty = false := isEmpty_eq_false_of_ne _ hp
    simp only [login, formMissing, hu0, hp0, Bool.or_self, Bool.false_eq_true,
      if_false, Option.getD_some]
    cases hfind : users.find? (fun u => u.username == username) with
    | none => simp
    | some u =>
      have hmem := List.mem_of_find?_eq_some hfind
      have hname := List.find?_some hfind
      simp only [beq_iff_eq] at hname
      have hne := hfail u hmem hname
      have hch : check_password_hash hash u.password_hash password = false := by
        simp [check_password_hash, hne]
      simp [hch]
  · intro np pw
    rfl

/-- Witness for C3 (amended) at a concrete unknown username. -/
theorem login_failure_message_uniform_witness :
    login (fun s => "h:" ++ s) [⟨1, "alice", "h:secret1"⟩] "http://localhost:5000/"
        (some "bob") (some "pass123") none =
      (some "Invalid username or password.", LoginPage.renderLogin) ∧
    (∀ np pw : Option String,
       login (fun s => "h:" ++ s) [⟨1, "alice", "h:secret1"⟩]
           "http://localhost:5000/" none pw np =
         (some "Username and password are required.", LoginPage.redirectLogin)) :=
  login_failure_message_uniform (fun s => "h:" ++ s) [⟨1, "alice", "h:secret1"⟩]
    "http://localhost:5000/" "bob" "pass123" none (by decide) (by decide)
    (by decide)

/-- C4: with both fields present, a description of exactly 1000 characters
(category within its bound) passes validation and — whenever the service
call returns without an uncaught exception — the entry is stored; a
description of 1001 characters, or a category of 101 characters, is rejected
with the length flash and no entry is stored. -/
theorem entry_length_boundary
    (svc : HttpResult) (entries : List Entry) (uid now : Nat)
    (a d : String) (ha : a ≠ "") (hd : d ≠ "") :
    (d.length = 1000 → a.length ≤ 100 →
      ∀ r, get_xai_response (build_user_input a d) svc = Except.ok r →
        index_post svc entries uid now (some a) (some d) =
          (IndexPostPage.saved,
           entries ++ [⟨entries.length + 1, uid, a, d, r, now⟩])) ∧
    (d.length = 1001 →
      index_post svc entries uid now (some a) (some d) =
        (IndexPostPage.flashTooLong, entries)) ∧
    (a.length = 101 →
      index_post svc entries uid now (some a) (some d) =
        (IndexPostPage.flashTooLong, entries)) := by
  have ha0 : a.isEmpty = false := isEmpty_eq_false_of_ne _ ha
  have hd0 : d.isEmpty = false := isEmpty_eq_false_of_ne _ hd
  refine ⟨?_, ?_, ?_⟩
  · intro h1000 hle r hr
    have hcond : (decide (a.length > 100) || decide (d.length > 1000)) = false := by
      simp only [Bool.or_eq_false_iff, decide_eq_false_iff_not]
      omega
    simp only [index_post, formMissing, ha0, hd0, Bool.or_self, Bool.false_eq_true,
      if_false, Option.getD_some, hcond, hr]
  · intro h1001
    have hcond : (decide (a.length > 100) || decide (d.length > 1000)) = true := by
      simp only [Bool.or_eq_true, decide_eq_true_eq]
      omega
    simp only [index_post, formMissing, ha0, hd0, Bool.or_self, Bool.false_eq_true,
      if_false, Option.getD_some, hcond, if_true]
  · intro h101
    have hcond : (decide (a.length > 100) || decide (d.length > 1000)) = true := by
      simp only [Bool.or_eq_true, decide_eq_true_eq]
      omega
    simp only [index_post, formMissing, ha0, hd0, Bool.or_self, Bool.false_eq_true,
      if_false, Option.getD_some, hcond, if_true]

/-- Witness for C4 at a concrete category and 1000/1001-character descriptions. -/
theorem entry_length_boundary_witness :
    ((String.mk (List.replicate 1000 'x')).length = 1000 →
      ("alcohol" : String).length ≤ 100 →
      ∀ r, get_xai_response
          (build_user_input "alcohol" (String.mk (List.replicate 1000 'x')))
          (HttpResult.resp 200 (RespBody.content "ok")) = Except.ok r →
        index_post (HttpResult.resp 200 (RespBody.content "ok")) [] 1 0
            (some "alcohol") (some (String.mk (List.replicate 1000 'x'))) =
          (IndexPostPage.saved,
           [] ++ [⟨0 + 1, 1, "alcohol", String.mk (List.replicate 1000 'x'), r, 0⟩])) ∧
    ((String.mk (List.replicate 1000 'x')).length = 1001 →
      index_post (HttpResult.resp 200 (RespBody.content "ok")) [] 1 0
          (some "alcohol") (some (String.mk (List.replicate 1000 'x'))) =
        (IndexPostPage.flashTooLong, [])) ∧
    (("alcohol" : String).length = 101 →
      index_post (HttpResult.resp 200 (RespBody.content "ok")) [] 1 0
          (some "alcohol") (some (String.mk (List.replicate 1000 'x'))) =
        (IndexPostPage.flashTooLong, [])) :=
  entry_length_boundary (HttpResult.resp 200 (RespBody.content "ok")) [] 1 0
    "alcohol" (String.mk (List.replicate 1000 'x')) (by decide)
    (ne_empty_of_length_pos _
      (by rw [String.length_mk, List.length_replicate]; omega))

/-- C1 fails as stated for the malformed-response case: a 200 response whose
JSON body lacks the expected fields raises an uncaught error, the request
aborts with a server error, and no entry is stored — the outcome is not the
claimed persisted entry carrying the fallback reply. -/
theorem malformed_response_aborts_without_entry :
    index_post (HttpResult.resp 200 RespBody.missingShape) [] 1 0
        (some "alcohol") (some "relapse") =
      (IndexPostPage.serverError PyExn.keyError, []) ∧
    index_post (HttpResult.resp 200 RespBody.missingShape) [] 1 0
        (some "alcohol") (some "relapse") ≠
      (IndexPostPage.saved, [⟨1, 1, "alcohol", "relapse", fallback_response, 0⟩]) := by
  constructor
  · rfl
  · decide

/-- C1 (amended): whenever the completion-service call raises a requests
exception — the post itself raising (network failure), a 4xx/5xx status, or a
body that is not valid JSON — a valid entry-creation request still stores the
entry for the current user with the fixed fallback string as its reply and no
error is propagated; a syntactically valid JSON body missing the expected
fields instead raises an uncaught error and no entry is stored. -/
theorem request_exception_stores_fallback
    (entries : List Entry) (uid now : Nat) (a d : String) (svc : HttpResult)
    (ha : a ≠ "") (hd : d ≠ "") (hla : a.length ≤ 100) (hld : d.length ≤ 1000)
    (hexn : svc = HttpResult.requestExn ∨
            (∃ st b, svc = HttpResult.resp st b ∧ 400 ≤ st ∧ st < 600) ∨
            (∃ st, svc = HttpResult.resp st RespBody.invalidJson)) :
    index_post svc entries uid now (some a) (some d) =
      (IndexPostPage.saved,
       entries ++ [⟨entries.length + 1, uid, a, d, fallback_response, now⟩]) := by
  have ha0 : a.isEmpty = false := isEmpty_eq_false_of_ne _ ha
  have hd0 : d.isEmpty = false := isEmpty_eq_false_of_ne _ hd
  have hcond : (decide (a.length > 100) || decide (d.length > 1000)) = false := by
    simp only [Bool.or_eq_false_iff, decide_eq_false_iff_not]
    omega
  have hxai : get_xai_response (build_user_input a d) svc =
      Except.ok fallback_response := by
    rcases hexn with h | ⟨st, b, h, h4, h6⟩ | ⟨st, h⟩
    · rw [h]; rfl
    · rw [h]
      simp only [get_xai_response, if_pos (And.intro h4 h6)]
    · rw [h]
      by_cases hst : 400 ≤ st ∧ st < 600
      · simp only [get_xai_response, if_pos hst]
      · simp only [get_xai_response, if_neg hst]
  simp only [index_post, formMissing, ha0, hd0, Bool.or_self, Bool.false_eq_true,
    if_false, Option.getD_some, hcond, hxai]

/-- Witness for C1 (amended) at a concrete network failure. -/
theorem request_exception_stores_fallback_witness :
    index_post HttpResult.requestExn [] 1 0 (some "alcohol") (some "relapse") =
      (IndexPostPage.saved,
       [] ++ [⟨0 + 1, 1, "alcohol", "relapse", fallback_response, 0⟩]) :=
  request_exception_stores_fallback [] 1 0 "alcohol" "relapse"
    HttpResult.requestExn (by decide) (by decide) (by decide) (by decide)
    (Or.inl rfl)

/-- Decomposition step for the two-sided strip: dropping leading whitespace
leaves the stripped core followed by the trailing whitespace margin. -/
theorem dropWhile_eq_strip_append (cs : List Char) :
    cs.dropWhile pyIsSpace =
      pyStripList cs ++
        ((cs.dropWhile pyIsSpace).reverse.takeWhile pyIsSpace).reverse := by
  conv_lhs => rw [← List.reverse_reverse (cs.dropWhile pyIsSpace),
    ← List.takeWhile_append_dropWhile pyIsSpace (cs.dropWhile pyIsSpace).reverse]
  rw [List.reverse_append]
  rfl

/-- The stripped core sits between two all-whitespace margins of the original. -/
theorem pyStripList_decomp (cs : List Char) :
    ∃ l r, cs = l ++ pyStripList cs ++ r ∧
      (∀ c ∈ l, pyIsSpace c = true) ∧ (∀ c ∈ r, pyIsSpace c = true) := by
  refine ⟨cs.takeWhile pyIsSpace,
    ((cs.dropWhile pyIsSpace).reverse.takeWhile pyIsSpace).reverse, ?_, ?_, ?_⟩
  · conv_lhs => rw [← List.takeWhile_append_dropWhile pyIsSpace cs,
      dropWhile_eq_strip_append cs]
    rw [List.append_assoc]
  · intro c hc
    exact List.mem_takeWhile_imp hc
  · intro c hc
    rw [List.mem_reverse] at hc
    exact List.mem_takeWhile_imp hc

/-- The stripped core does not begin with a whitespace character. -/
theorem pyStripList_head_not_space (cs : List Char) (c : Char)
    (h : (pyStripList cs).head? = some c) : pyIsSpace c = false := by
  have hd := List.head?_dropWhile_not pyIsSpace cs
  rw [dropWhile_eq_strip_append cs, List.head?_append, h] at hd
  simpa using hd

/-- The stripped core does not end with a whitespace character. -/
theorem pyStripList_getLast_not_space (cs : List Char) (c : Char)
    (h : (pyStripList cs).getLast? = some c) : pyIsSpace c = false := by
  have hd := List.head?_dropWhile_not pyIsSpace (cs.dropWhile pyIsSpace).reverse
  rw [List.getLast?_eq_head?_reverse] at h
  have hrev : (pyStripList cs).reverse =
      (cs.dropWhile pyIsSpace).reverse.dropWhile pyIsSpace := by
    simp [pyStripList]
  rw [hrev] at h
  rw [h] at hd
  simpa using hd

/-- C9: a successful completion-service call yields exactly the returned
content with leading and trailing whitespace removed: the reply is the strip
of the content, the content decomposes as whitespace margins around the
reply, and the reply neither starts nor ends with whitespace. -/
theorem xai_success_reply_stripped
    (userInput s : String) (status : Nat)
    (hok : ¬ (400 ≤ status ∧ status < 600)) :
    get_xai_response userInput (HttpResult.resp status (RespBody.content s)) =
      Except.ok (pyStrip s) ∧
    (∃ l r, s.toList = l ++ (pyStrip s).toList ++ r ∧
       (∀ c ∈ l, pyIsSpace c = true) ∧ (∀ c ∈ r, pyIsSpace c = true)) ∧
    (∀ c, ((pyStrip s).toList.head? = some c → pyIsSpace c = false) ∧
          ((pyStrip s).toList.getLast? = some c → pyIsSpace c = false)) := by
  have htl : (pyStrip s).toList = pyStripList s.toList := rfl
  refine ⟨?_, ?_, ?_⟩
  · simp only [get_xai_response, if_neg hok]
  · rw [htl]
    exact pyStripList_decomp s.toList
  · intro c
    rw [htl]
    exact ⟨pyStripList_head_not_space s.toList c,
           pyStripList_getLast_not_space s.toList c⟩

/-- Witness for C9 at a concrete whitespace-padded content string. -/
theorem xai_success_reply_stripped_witness :
    get_xai_response "prompt" (HttpResult.resp 200 (RespBody.content " hi ")) =
      Except.ok (pyStrip " hi ") ∧
    (∃ l r, (" hi " : String).toList = l ++ (pyStrip " hi ").toList ++ r ∧
       (∀ c ∈ l, pyIsSpace c = true) ∧ (∀ c ∈ r, pyIsSpace c = true)) ∧
    (∀ c, ((pyStrip " hi ").toList.head? = some c → pyIsSpace c = false) ∧
          ((pyStrip " hi ").toList.getLast? = some c → pyIsSpace c = false)) :=
  xai_success_reply_stripped "prompt" " hi " 200 (by decide)

/-- C7: listing returns exactly the current identity's entries — membership
in the listing is equivalent to being an entry of that user in the store, so
it never includes another user's entry — ordered by creation timestamp
descending (newest first). -/
theorem index_get_owned_and_sorted (entries : List Entry) (uid : Nat) :
    (∀ e, e ∈ index_get entries uid ↔ (e ∈ entries ∧ e.user_id = uid)) ∧
    (index_get entries uid).Pairwise (fun a b => b.created_at ≤ a.created_at) := by
  constructor
  · intro e
    unfold index_get
    rw [List.mem_mergeSort, List.mem_filter]
    simp
  · have hs := @List.sorted_mergeSort Entry
      (fun a b => decide (b.created_at ≤ a.created_at))
      (fun (a b c : Entry) hab hbc => by
        simp only [decide_eq_true_eq] at hab hbc ⊢
        exact Nat.le_trans hbc hab)
      (fun (a b : Entry) => by
        simp only [Bool.or_eq_true, decide_eq_true_eq]
        exact Nat.le_total b.created_at a.created_at)
      (entries.filter (fun e => e.user_id == uid))
    unfold index_get
    exact hs.imp (fun h => by simpa using h)

/-- C2: on a successful login with a `next` parameter, the target is followed
only if the URL obtained by joining it against the current host URL has
scheme http or https and a netloc equal to the host netloc; a `next` target
whose joined netloc differs from the host netloc is ignored and the user is
redirected to the index page instead. -/
theorem login_next_same_origin
    (hash : String → String) (users : List User) (host_url : String)
    (username password t : String) (user : User)
    (hu : username ≠ "") (hp : password ≠ "")
    (hfind : users.find? (fun u => u.username == username) = some user)
    (hpw : check_password_hash hash user.password_hash password = true) :
    ((login hash users host_url (some username) (some password) (some t)).2 =
        LoginPage.redirectNext t →
      ((urljoin host_url t).scheme = "http" ∨
        (urljoin host_url t).scheme = "https") ∧
      (urljoin host_url t).netloc = (urlparse host_url "").netloc) ∧
    ((urljoin host_url t).netloc ≠ (urlparse host_url "").netloc →
      (login hash users host_url (some username) (some password) (some t)).2 =
        LoginPage.redirectIndex) := by
  have hu0 : username.isEmpty = false := isEmpty_eq_false_of_ne _ hu
  have hp0 : password.isEmpty = false := isEmpty_eq_false_of_ne _ hp
  constructor
  · intro hnext
    by_cases hsafe : t ≠ "" ∧ is_safe_url host_url t = true
    · have hs := hsafe.2
      simp only [is_safe_url, Bool.and_eq_true, Bool.or_eq_true, beq_iff_eq] at hs
      exact ⟨hs.1, hs.2.symm⟩
    · exfalso
      have hidx : (login hash users host_url (some username) (some password)
          (some t)).2 = LoginPage.redirectIndex := by
        simp [login, formMissing, hu0, hp0, hfind, hpw, hsafe]
      rw [hidx] at hnext
      exact LoginPage.noConfusion hnext
  · intro hne
    have hbeq : ((urlparse host_url "").netloc == (urljoin host_url t).netloc)
        = false := by
      simp only [beq_eq_false_iff_ne, ne_eq]
      exact fun hcontra => hne hcontra.symm
    have hsafe : is_safe_url host_url t = false := by
      simp only [is_safe_url, hbeq, Bool.and_false]
    simp [login, formMissing, hu0, hp0, hfind, hpw, hsafe]

/-- Witness for C2 at a concrete external-host `next` target. -/
theorem login_next_same_origin_witness :
    ((login (fun s => "h:" ++ s) [⟨1, "alice", "h:secret1"⟩]
          "http://localhost:5000/" (some "alice") (some "secret1")
          (some "http://evil.com/")).2 = LoginPage.redirectNext "http://evil.com/" →
      ((urljoin "http://localhost:5000/" "http://evil.com/").scheme = "http" ∨
        (urljoin "http://localhost:5000/" "http://evil.com/").scheme = "https") ∧
      (urljoin "http://localhost:5000/" "http://evil.com/").netloc =
        (urlparse "http://localhost:5000/" "").netloc) ∧
    ((urljoin "http://localhost:5000/" "http://evil.com/").netloc ≠
        (urlparse "http://localhost:5000/" "").netloc →
      (login (fun s => "h:" ++ s) [⟨1, "alice", "h:secret1"⟩]
          "http://localhost:5000/" (some "alice") (some "secret1")
          (some "http://evil.com/")).2 = LoginPage.redirectIndex) :=
  login_next_same_origin (fun s => "h:" ++ s) [⟨1, "alice", "h:secret1"⟩]
    "http://localhost:5000/" "alice" "secret1" "http://evil.com/"
    ⟨1, "alice", "h:secret1"⟩ (by decide) (by decide) (by decide) (by decide)
